import Mathlib

/-!
Shallow embedding of the crondes dynamic-DNS updater.

The embedding models the four source files of the repository:
`config.rs` (environment-backed configuration), `cloudflare.rs`
(provider client operations), `ip.rs` (public-IP resolution) and
`main.rs` (the per-cycle orchestration `check_all_info` / `update`
and the scheduler loop of `main`).

Network effects are made explicit: a `ProviderBehavior` fixes the
response of every provider endpoint touched during one cycle (with
`none` standing for a transport failure of the call), and the IP-echo
services are a function from service URL to an optional response body.
Stateful orchestration is modelled as explicit result-and-trace
passing; the scheduler loop is a fuel-indexed step function producing
the list of cycle and wait events it performed.
-/

namespace Crondes

/-- JSON values as consumed by the provider client. -/
inductive Json where
  | null
  | bool (b : Bool)
  | num (n : Nat)
  | str (s : String)
  | arr (xs : List Json)
  | obj (fields : List (String × Json))

/-- Indexing a JSON value by key, as `value[key]` behaves in the source:
object lookup returning `null` for a missing key, and `null` when the
value is not an object. -/
def getKey (j : Json) (k : String) : Json :=
  match j with
  | .obj fields =>
    match fields.lookup k with
    | some v => v
    | none => .null
  | _ => .null

/-- The string payload of a JSON value, when it is a string. -/
def asStr : Json → Option String
  | .str s => some s
  | _ => none

/-- One HTTP response from the provider: the status success flag and the
body, `none` when the body does not parse as JSON. -/
structure Response where
  isSuccess : Bool
  body : Option Json

/-- One provider behaviour for a cycle: the outcome of each endpoint
call the client can make, `none` standing for a transport failure of
that call. -/
structure ProviderBehavior where
  tokenVerify : Option Response
  zoneGet : Option Response
  recordGet : Option Response
  recordContentGet : Option Response
  recordsListGet : Option Response
  recordPut : Option Response

/-- Builds a provider behaviour from its six endpoint outcomes. -/
def mkBehavior (tok zone rec cont listing put : Option Response) : ProviderBehavior :=
  ⟨tok, zone, rec, cont, listing, put⟩

/-- The provider endpoint a failing call was addressed to. -/
inductive OpName where
  | tokenVerify
  | zoneGet
  | recordGet
  | currentContentGet
  | listRecordsGet
  | writePut
  deriving DecidableEq

/-- Errors of the client and cycle code: a transport failure of a call,
a failure to parse a response body as JSON, or one of the string
messages the source constructs. -/
inductive CfError where
  | transport (op : OpName)
  | jsonErr (op : OpName)
  | msg (s : String)
  deriving DecidableEq

/-- Cloudflare::api_token_right: sends the token-verification request and
returns whether the status is a success. -/
def api_token_right (p : ProviderBehavior) : Except CfError Bool :=
  match p.tokenVerify with
  | none => .error (.transport .tokenVerify)
  | some r => .ok r.isSuccess

/-- Cloudflare::zone_id_right: sends the zone lookup request and returns
whether the status is a success. -/
def zone_id_right (p : ProviderBehavior) : Except CfError Bool :=
  match p.zoneGet with
  | none => .error (.transport .zoneGet)
  | some r => .ok r.isSuccess

/-- Cloudflare::record_id_right: sends the record lookup request and
returns whether the status is a success. -/
def record_id_right (p : ProviderBehavior) : Except CfError Bool :=
  match p.recordGet with
  | none => .error (.transport .recordGet)
  | some r => .ok r.isSuccess

/-- Cloudflare::current_ip: fetches the record, parses the body as JSON
and extracts `result.content` as a string; the HTTP status is never
inspected. -/
def current_ip (p : ProviderBehavior) : Except CfError String :=
  match p.recordContentGet with
  | none => .error (.transport .currentContentGet)
  | some r =>
    match r.body with
    | none => .error (.jsonErr .currentContentGet)
    | some j =>
      match asStr (getKey (getKey j "result") "content") with
      | none => .error (.msg "No IP found in record")
      | some ip => .ok ip

/-- RecordInfo of cloudflare.rs: one DNS record as listed. -/
structure RecordInfo where
  id : String
  name : String
  record_type : String
  content : String
  deriving DecidableEq

/-- One listed record built from its JSON object, with every missing or
non-string field defaulted to the empty string. -/
def recordInfoOfJson (rec : Json) : RecordInfo :=
  { id := (asStr (getKey rec "id")).getD ""
  , name := (asStr (getKey rec "name")).getD ""
  , record_type := (asStr (getKey rec "type")).getD ""
  , content := (asStr (getKey rec "content")).getD "" }

/-- Cloudflare::list_records: fetches the record list, parses the body
as JSON and maps `result` when it is an array, returning the empty list
otherwise; the HTTP status is never inspected. -/
def list_records (p : ProviderBehavior) : Except CfError (List RecordInfo) :=
  match p.recordsListGet with
  | none => .error (.transport .listRecordsGet)
  | some r =>
    match r.body with
    | none => .error (.jsonErr .listRecordsGet)
    | some j =>
      match getKey j "result" with
      | .arr xs => .ok (xs.map recordInfoOfJson)
      | _ => .ok []

/-- The JSON body Cloudflare::update_ip sends with the PUT request. -/
def update_body (new_ip : String) : Json :=
  .obj [ ("type", .str "A")
       , ("name", .str "")
       , ("content", .str new_ip)
       , ("ttl", .num 1)
       , ("proxied", .bool false) ]

/-- Cloudflare::update_ip: sends the PUT request and succeeds exactly
when the status is a success, failing with the fixed message otherwise. -/
def update_ip (p : ProviderBehavior) (new_ip : String) : Except CfError Unit :=
  match p.recordPut with
  | none => .error (.transport .writePut)
  | some r => if r.isSuccess then .ok () else .error (.msg "Failed to update IP")

/-- IP_SERVICES of ip.rs: the fixed ordered list of IP-echo services. -/
def IP_SERVICES : List String :=
  [ "https://api.ipify.org"
  , "https://ifconfig.me/ip"
  , "https://checkip.amazonaws.com"
  , "https://ipecho.net/plain"
  , "https://ident.me" ]

/-- Dropping leading whitespace characters. -/
def dropWs (l : List Char) : List Char :=
  l.dropWhile Char.isWhitespace

/-- Trimming a string, as `str::trim` behaves: both leading and trailing
whitespace characters removed. -/
def str_trim (s : String) : String :=
  ⟨(dropWs (dropWs s.data).reverse).reverse⟩

/-- Accumulating a run of decimal digits into a number, failing on the
first non-digit character. -/
def parse_digits_aux (acc : Nat) : List Char → Option Nat
  | [] => some acc
  | c :: cs =>
    if c.isDigit then parse_digits_aux (acc * 10 + (c.toNat - '0'.toNat)) cs
    else none

/-- Whether a character run is one decimal octet as the IPv4 parser
accepts it: nonempty, all digits, value at most 255, and no leading
zero unless it is the single digit 0. -/
def isValidOctet : List Char → Bool
  | [] => false
  | c :: rest =>
    match parse_digits_aux 0 (c :: rest) with
    | none => false
    | some n => n ≤ 255 && (rest.isEmpty || c ≠ '0')

/-- Splitting a character run at every dot; a run with no dot yields one
part, and each dot adds a part. -/
def splitOnDot : List Char → List (List Char)
  | [] => [[]]
  | c :: rest =>
    match splitOnDot rest with
    | [] => [[]]
    | h :: t => if c = '.' then [] :: h :: t else (c :: h) :: t

/-- Whether a string is a syntactically valid IPv4 address: exactly four
valid octets separated by dots, consuming the whole string. -/
def is_valid_ipv4 (s : String) : Bool :=
  let parts := splitOnDot s.data
  parts.length == 4 && parts.all isValidOctet

/-- The iteration of fetch_public_ip over the bodies the services
returned, `none` standing for a failed fetch: trim each body, return the
first trimmed body that is a valid IPv4 address, and fail with the fixed
message when no source yields one. -/
def fetch_public_ip_from (responses : List (Option String)) : Except CfError String :=
  match responses with
  | [] => .error (.msg "No valid public IP address could be determined")
  | none :: rest => fetch_public_ip_from rest
  | some resp :: rest =>
    let ip := str_trim resp
    if is_valid_ipv4 ip then .ok ip else fetch_public_ip_from rest

/-- fetch_public_ip of ip.rs: runs the iteration over the responses of
the fixed service list. -/
def fetch_public_ip (ipEnv : String → Option String) : Except CfError String :=
  fetch_public_ip_from (IP_SERVICES.map ipEnv)

/-- The provider calls and resolution step a cycle can perform, in the
order they appear in its trace. -/
inductive Call where
  | tokenVerify
  | zoneGet
  | recordGet
  | listRecordsGet
  | currentContentGet
  | resolveIp
  | writePut (body : Json)

/-- Whether a trace event is the record write. -/
def isWriteCall : Call → Bool
  | .writePut _ => true
  | _ => false

/-- check_all_info of main.rs, with the calls it performed: verify the
token, the zone id and the record id in order, each failure or false
answer ending the check; on an invalid record id, make the diagnostic
list_records call (whose own failure propagates) and fail with the
record-invalid message. -/
def check_all_info (p : ProviderBehavior) : Except CfError Unit × List Call :=
  match api_token_right p with
  | .error e => (.error e, [.tokenVerify])
  | .ok tok =>
    if tok then
      match zone_id_right p with
      | .error e => (.error e, [.tokenVerify, .zoneGet])
      | .ok zOk =>
        if zOk then
          match record_id_right p with
          | .error e => (.error e, [.tokenVerify, .zoneGet, .recordGet])
          | .ok rOk =>
            if rOk then
              (.ok (), [.tokenVerify, .zoneGet, .recordGet])
            else
              match list_records p with
              | .error e =>
                (.error e, [.tokenVerify, .zoneGet, .recordGet, .listRecordsGet])
              | .ok _ =>
                (.error (.msg "Record ID is invalid"),
                 [.tokenVerify, .zoneGet, .recordGet, .listRecordsGet])
        else (.error (.msg "Zone ID is invalid"), [.tokenVerify, .zoneGet])
    else (.error (.msg "API token is invalid"), [.tokenVerify])

/-- update of main.rs, with the calls it performed: run check_all_info,
read the record's current content, resolve the public IP, and when the
two strings differ send exactly one write whose body carries the
resolved IP; each failure ends the cycle there. -/
def update (p : ProviderBehavior) (ipEnv : String → Option String) :
    Except CfError Unit × List Call :=
  match check_all_info p with
  | (.error e, tr) => (.error e, tr)
  | (.ok _, tr) =>
    match current_ip p with
    | .error e => (.error e, tr ++ [.currentContentGet])
    | .ok current_dns_ip =>
      match fetch_public_ip ipEnv with
      | .error e => (.error e, tr ++ [.currentContentGet, .resolveIp])
      | .ok public_ip =>
        if current_dns_ip ≠ public_ip then
          match update_ip p public_ip with
          | .ok _ =>
            (.ok (), tr ++ [.currentContentGet, .resolveIp, .writePut (update_body public_ip)])
          | .error e =>
            (.error e, tr ++ [.currentContentGet, .resolveIp, .writePut (update_body public_ip)])
        else
          (.ok (), tr ++ [.currentContentGet, .resolveIp])

/-- Config of config.rs. -/
structure Config where
  cloudflare_api_token : String
  cloudflare_zone_id : String
  cloudflare_record_id : String
  update_interval_secs : Nat
  deriving DecidableEq

/-- Parsing a string as a u64, as `str::parse::<u64>` accepts it: an
optional leading plus sign, then at least one digit and only digits,
with the value below 2 to the 64. -/
def parse_u64 (s : String) : Option Nat :=
  let cs := match s.data with
            | '+' :: rest => rest
            | other => other
  match cs with
  | [] => none
  | _ :: _ =>
    match parse_digits_aux 0 cs with
    | none => none
    | some n => if n < 2 ^ 64 then some n else none

/-- Config::from_env: reads the four environment variables in order,
failing with the per-variable message when one is missing, and parses
the interval as a u64. -/
def Config.from_env (env : String → Option String) : Except String Config :=
  match env "CF_API_TOKEN" with
  | none => .error "CF_API_TOKEN is missing"
  | some cloudflare_api_token =>
    match env "CF_ZONE_ID" with
    | none => .error "CF_ZONE_ID is missing"
    | some cloudflare_zone_id =>
      match env "CF_RECORD_ID" with
      | none => .error "CF_RECORD_ID is missing"
      | some cloudflare_record_id =>
        match env "UPDATE_INTERVAL_SECS" with
        | none => .error "UPDATE_INTERVAL_SECS is missing"
        | some raw =>
          match parse_u64 raw with
          | none => .error "UPDATE_INTERVAL_SECS must be a number"
          | some update_interval_secs =>
            .ok { cloudflare_api_token, cloudflare_zone_id,
                  cloudflare_record_id, update_interval_secs }

/-- What main does before any cycle: a config error aborts startup, and
only a loaded config starts the scheduler. -/
inductive MainOutcome where
  | configError (e : String)
  | schedulerStarted (cfg : Config)
  deriving DecidableEq

/-- The startup stage of main: load the config and either abort with the
error or start the scheduler with the loaded config. -/
def main_startup (env : String → Option String) : MainOutcome :=
  match Config.from_env env with
  | .error e => .configError e
  | .ok cfg => .schedulerStarted cfg

/-- One observable event of the scheduler loop: running cycle `i`, or
the inter-cycle wait after cycle `i`. -/
inductive Ev where
  | cycleRun (i : Nat)
  | intervalWait (i : Nat)
  deriving DecidableEq

/-- The scheduler's state: still looping, or stopped for good. -/
inductive SchedState where
  | running
  | stopped
  deriving DecidableEq

/-- The scheduler loop of main.rs as a fuel-indexed step function over
cycle results (`res i` is whether cycle `i` succeeds) and the external
shutdown signal (`shut i` is whether it fires during the wait after
cycle `i`): each iteration first runs the cycle, breaking on failure;
on success it enters the inter-cycle wait, which the shutdown signal
ends by stopping the loop, and otherwise continues. Exhausted fuel
leaves the loop still running. -/
def sched_loop (res shut : Nat → Bool) : Nat → Nat → List Ev × SchedState
  | 0, _ => ([], .running)
  | fuel + 1, i =>
    if res i = false then
      ([.cycleRun i], .stopped)
    else if shut i = true then
      ([.cycleRun i, .intervalWait i], .stopped)
    else
      let next := sched_loop res shut fuel (i + 1)
      (.cycleRun i :: .intervalWait i :: next.1, next.2)

/-- The trace of a run whose first `k` cycles succeed without a shutdown
and whose cycle `i + k` fails. -/
def cycles_until (i : Nat) : Nat → List Ev
  | 0 => [.cycleRun i]
  | k + 1 => .cycleRun i :: .intervalWait i :: cycles_until (i + 1) k

/-- Modelled from the spec: the value public-IP resolution is specified
to produce from the ordered source responses — the trimmed body of the
first source that yields a syntactically valid IPv4 address, if any. -/
def spec_first_valid (responses : List (Option String)) : Option String :=
  responses.findSome? fun o =>
    o.bind fun body =>
      if is_valid_ipv4 (str_trim body) then some (str_trim body) else none

/-- A success response with no usable body. -/
def okResp : Response := ⟨true, none⟩

/-- A non-success response with no usable body. -/
def badResp : Response := ⟨false, none⟩

/-- A behaviour whose token and zone checks succeed, whose record check
answers with a non-success status, and whose record listing fails in
transport. -/
def p_c1 : ProviderBehavior :=
  mkBehavior (some okResp) (some okResp) (some badResp) (some okResp) none (some okResp)

/-- A behaviour answering the content read and the record listing with
non-success statuses over well-formed bodies. -/
def p_c2 : ProviderBehavior :=
  mkBehavior none none none
    (some ⟨false, some (.obj [("result", .obj [("content", .str "1.2.3.4")])])⟩)
    (some ⟨false, some (.obj [("result", .arr [])])⟩)
    none

/-- An environment carrying all four variables with a zero interval. -/
def env_c3 : String → Option String := fun k =>
  if k = "CF_API_TOKEN" then some "token"
  else if k = "CF_ZONE_ID" then some "zone"
  else if k = "CF_RECORD_ID" then some "rec"
  else if k = "UPDATE_INTERVAL_SECS" then some "0"
  else none

/-- A behaviour whose checks all succeed, whose record content reads
"1.2.3.4" and whose write succeeds. -/
def p_c5 : ProviderBehavior :=
  mkBehavior (some okResp) (some okResp) (some okResp)
    (some ⟨true, some (.obj [("result", .obj [("content", .str "1.2.3.4")])])⟩)
    none (some okResp)

/-- An IP-echo environment in which every service answers "5.6.7.8". -/
def ipenv_c5 : String → Option String := fun _ => some "5.6.7.8"

/-- A record body whose content field is not an IPv4 address. -/
def j_c10 : Json := .obj [("result", .obj [("content", .str "not-an-ip")])]

/-- Cycle results for the scheduler witness: only cycle 0 succeeds. -/
def sres : Nat → Bool := fun i => i == 0

/-- A shutdown signal that never fires. -/
def sshut : Nat → Bool := fun _ => false

/-- Cycle results for the shutdown witness: every cycle succeeds. -/
def cres : Nat → Bool := fun _ => true

/-- A shutdown signal that fires during every wait. -/
def cshut : Nat → Bool := fun _ => true

/-! Helper lemmas enumerating the outcomes of check_all_info. -/

theorem check_tok_err (p : ProviderBehavior) (e : CfError)
    (h : api_token_right p = .error e) :
    check_all_info p = (.error e, [.tokenVerify]) := by
  simp [check_all_info, h]

theorem check_tok_false (p : ProviderBehavior)
    (h : api_token_right p = .ok false) :
    check_all_info p = (.error (.msg "API token is invalid"), [.tokenVerify]) := by
  simp [check_all_info, h]

theorem check_zone_err (p : ProviderBehavior) (e : CfError)
    (htok : api_token_right p = .ok true)
    (h : zone_id_right p = .error e) :
    check_all_info p = (.error e, [.tokenVerify, .zoneGet]) := by
  simp [check_all_info, htok, h]

theorem check_zone_false (p : ProviderBehavior)
    (htok : api_token_right p = .ok true)
    (h : zone_id_right p = .ok false) :
    check_all_info p = (.error (.msg "Zone ID is invalid"), [.tokenVerify, .zoneGet]) := by
  simp [check_all_info, htok, h]

theorem check_rec_err (p : ProviderBehavior) (e : CfError)
    (htok : api_token_right p = .ok true)
    (hzone : zone_id_right p = .ok true)
    (h : record_id_right p = .error e) :
    check_all_info p = (.error e, [.tokenVerify, .zoneGet, .recordGet]) := by
  simp [check_all_info, htok, hzone, h]

theorem check_rec_false_list_ok (p : ProviderBehavior) (recs : List RecordInfo)
    (htok : api_token_right p = .ok true)
    (hzone : zone_id_right p = .ok true)
    (hrec : record_id_right p = .ok false)
    (hlist : list_records p = .ok recs) :
    check_all_info p =
      (.error (.msg "Record ID is invalid"),
       [.tokenVerify, .zoneGet, .recordGet, .listRecordsGet]) := by
  simp [check_all_info, htok, hzone, hrec, hlist]

theorem check_rec_false_list_err (p : ProviderBehavior) (e : CfError)
    (htok : api_token_right p = .ok true)
    (hzone : zone_id_right p = .ok true)
    (hrec : record_id_right p = .ok false)
    (hlist : list_records p = .error e) :
    check_all_info p =
      (.error e, [.tokenVerify, .zoneGet, .recordGet, .listRecordsGet]) := by
  simp [check_all_info, htok, hzone, hrec, hlist]

theorem check_passes (p : ProviderBehavior)
    (htok : api_token_right p = .ok true)
    (hzone : zone_id_right p = .ok true)
    (hrec : record_id_right p = .ok true) :
    check_all_info p = (.ok (), [.tokenVerify, .zoneGet, .recordGet]) := by
  simp [check_all_info, htok, hzone, hrec]

theorem check_succ (p : ProviderBehavior)
    (h : (check_all_info p).1 = .ok ()) :
    check_all_info p = (.ok (), [.tokenVerify, .zoneGet, .recordGet]) ∧
    api_token_right p = .ok true ∧
    zone_id_right p = .ok true ∧
    record_id_right p = .ok true := by
  cases htok : api_token_right p with
  | error e => rw [check_tok_err p e htok] at h; simp at h
  | ok tok =>
    cases tok with
    | false => rw [check_tok_false p htok] at h; simp at h
    | true =>
      cases hzone : zone_id_right p with
      | error e => rw [check_zone_err p e htok hzone] at h; simp at h
      | ok zOk =>
        cases zOk with
        | false => rw [check_zone_false p htok hzone] at h; simp at h
        | true =>
          cases hrec : record_id_right p with
          | error e => rw [check_rec_err p e htok hzone hrec] at h; simp at h
          | ok rOk =>
            cases rOk with
            | false =>
              cases hlist : list_records p with
              | error e =>
                rw [check_rec_false_list_err p e htok hzone hrec hlist] at h
                simp at h
              | ok recs =>
                rw [check_rec_false_list_ok p recs htok hzone hrec hlist] at h
                simp at h
            | true =>
              exact ⟨check_passes p htok hzone hrec, rfl, rfl, rfl⟩

/-- Claim C1, counterexample: with the token and zone checks passing,
the record check answering a non-success status and the record listing
failing in transport, check_all_info reports the listing failure, not
the record-invalid message the claim requires. -/
theorem c1_counterexample :
    (check_all_info p_c1).1 = .error (.transport .listRecordsGet) ∧
    CfError.transport .listRecordsGet ≠ CfError.msg "Record ID is invalid" := by
  constructor
  · rfl
  · intro h
    cases h

/-- Claim C1 (amended): when the record check answers false after the
token and zone checks pass, and the diagnostic list_records call
succeeds, the cycle error is the record-invalid message; but when
list_records itself fails, its error propagates and replaces the
record-invalid message as the resulting error. -/
theorem c1_record_invalid_error (p : ProviderBehavior)
    (htok : api_token_right p = .ok true)
    (hzone : zone_id_right p = .ok true)
    (hrec : record_id_right p = .ok false) :
    (∀ recs, list_records p = .ok recs →
       (check_all_info p).1 = .error (.msg "Record ID is invalid")) ∧
    (∀ e, list_records p = .error e → (check_all_info p).1 = .error e) := by
  constructor
  · intro recs hlist
    rw [check_rec_false_list_ok p recs htok hzone hrec hlist]
  · intro e hlist
    rw [check_rec_false_list_err p e htok hzone hrec hlist]

/-- Claim C1, witness: the amended claim applied to the concrete
behaviour whose record listing fails in transport. -/
theorem c1_record_invalid_error_witness :
    (check_all_info p_c1).1 = .error (.transport .listRecordsGet) :=
  (c1_record_invalid_error p_c1 rfl rfl rfl).2 (.transport .listRecordsGet) rfl

/-- Claim C2, counterexample: against a behaviour answering with
non-success statuses over well-formed bodies, list_records returns Ok
of the empty list and current_ip returns Ok of the body's content
string, although the claim requires both to fail on any non-success
status. -/
theorem c2_counterexample :
    p_c2.recordsListGet = some ⟨false, some (.obj [("result", .arr [])])⟩ ∧
    list_records p_c2 = .ok [] ∧
    p_c2.recordContentGet =
      some ⟨false, some (.obj [("result", .obj [("content", .str "1.2.3.4")])])⟩ ∧
    current_ip p_c2 = .ok "1.2.3.4" :=
  ⟨rfl, rfl, rfl, rfl⟩

/-- Claim C2 (amended): the three verification operations map a
non-success status to Ok false and the write maps it to the fixed
write-rejected error; but current_ip and list_records never inspect the
status — their results depend only on the response body, so with a
suitable body they return Ok on a non-success status. -/
theorem c2_status_handling (tok zone rec cont listing put : Option Response)
    (r : Response) (s : String) (b : Option Json) (s1 s2 : Bool)
    (h : r.isSuccess = false) :
    api_token_right (mkBehavior (some r) zone rec cont listing put) = .ok false ∧
    zone_id_right (mkBehavior tok (some r) rec cont listing put) = .ok false ∧
    record_id_right (mkBehavior tok zone (some r) cont listing put) = .ok false ∧
    update_ip (mkBehavior tok zone rec cont listing (some r)) s =
      .error (.msg "Failed to update IP") ∧
    current_ip (mkBehavior tok zone rec (some ⟨s1, b⟩) listing put) =
      current_ip (mkBehavior tok zone rec (some ⟨s2, b⟩) listing put) ∧
    list_records (mkBehavior tok zone rec cont (some ⟨s1, b⟩) put) =
      list_records (mkBehavior tok zone rec cont (some ⟨s2, b⟩) put) := by
  refine ⟨?_, ?_, ?_, ?_, rfl, rfl⟩
  · simp [api_token_right, mkBehavior, h]
  · simp [zone_id_right, mkBehavior, h]
  · simp [record_id_right, mkBehavior, h]
  · simp [update_ip, mkBehavior, h]

/-- Claim C2, witness: the amended claim applied to a concrete
non-success response and body. -/
theorem c2_status_handling_witness :
    api_token_right (mkBehavior (some badResp) none none none none none) = .ok false ∧
    zone_id_right (mkBehavior none (some badResp) none none none none) = .ok false ∧
    record_id_right (mkBehavior none none (some badResp) none none none) = .ok false ∧
    update_ip (mkBehavior none none none none none (some badResp)) "1.2.3.4" =
      .error (.msg "Failed to update IP") :=
  have h := c2_status_handling none none none none none none badResp "1.2.3.4"
    none false true rfl
  ⟨h.1, h.2.1, h.2.2.1, h.2.2.2.1⟩

/-- Claim C3, counterexample: an environment carrying all four
variables with interval string "0" loads successfully with interval 0,
although the claim requires loading to fail for every interval value
that is not a positive integer. -/
theorem c3_counterexample :
    env_c3 "UPDATE_INTERVAL_SECS" = some "0" ∧
    Config.from_env env_c3 = .ok ⟨"token", "zone", "rec", 0⟩ ∧
    ¬ 0 < (0 : Nat) := by
  refine ⟨rfl, by rfl, by decide⟩

/-- Claim C3 (amended): configuration loading succeeds exactly when all
four environment variables are present and the interval string parses
as a base-10 u64 (optionally plus-prefixed, value below 2 to the 64;
zero included, so success does not require a positive interval), and
startup runs the scheduler exactly on a successful load, aborting with
the config error otherwise. -/
theorem c3_config_load (env : String → Option String) :
    ((∃ cfg, Config.from_env env = .ok cfg) ↔
      ((env "CF_API_TOKEN").isSome ∧ (env "CF_ZONE_ID").isSome ∧
       (env "CF_RECORD_ID").isSome ∧
       (∃ s n, env "UPDATE_INTERVAL_SECS" = some s ∧ parse_u64 s = some n))) ∧
    (∀ cfg, main_startup env = .schedulerStarted cfg ↔ Config.from_env env = .ok cfg) := by
  constructor
  · cases htok : env "CF_API_TOKEN" with
    | none => simp [Config.from_env, htok]
    | some tok =>
      cases hzone : env "CF_ZONE_ID" with
      | none => simp [Config.from_env, htok, hzone]
      | some zone =>
        cases hrec : env "CF_RECORD_ID" with
        | none => simp [Config.from_env, htok, hzone, hrec]
        | some rec =>
          cases hint : env "UPDATE_INTERVAL_SECS" with
          | none => simp [Config.from_env, htok, hzone, hrec, hint]
          | some raw =>
            cases hparse : parse_u64 raw with
            | none => simp [Config.from_env, htok, hzone, hrec, hint, hparse]
            | some n => simp [Config.from_env, htok, hzone, hrec, hint, hparse]
  · intro cfg
    unfold main_startup
    cases henv : Config.from_env env with
    | error e => simp
    | ok cfg2 => simp

/-- Claim C3, witness: the amended claim applied to the all-present
zero-interval environment and to the empty environment. -/
theorem c3_config_load_witness :
    (∃ cfg, Config.from_env env_c3 = .ok cfg) ∧
    ¬ ∃ cfg, Config.from_env (fun _ => none) = .ok cfg := by
  constructor
  · exact (c3_config_load env_c3).1.mpr
      ⟨by rfl, by rfl, by rfl, "0", 0, by rfl, by rfl⟩
  · intro h
    have h2 := (c3_config_load (fun _ => none)).1.mp h
    simp at h2

/-! Helper lemmas about the scheduler loop. -/

theorem sched_loop_first_fail (res shut : Nat → Bool) :
    ∀ (k i fuel : Nat), res (i + k) = false →
      (∀ j, j < k → res (i + j) = true ∧ shut (i + j) = false) →
      k < fuel →
      sched_loop res shut fuel i = (cycles_until i k, .stopped) := by
  intro k
  induction k with
  | zero =>
    intro i fuel hfail _ hfuel
    match fuel, hfuel with
    | f + 1, _ =>
      simp only [Nat.add_zero] at hfail
      simp [sched_loop, hfail, cycles_until]
  | succ k ih =>
    intro i fuel hfail hpre hfuel
    match fuel, hfuel with
    | f + 1, hfuel =>
      have h0 := hpre 0 (Nat.succ_pos k)
      simp only [Nat.add_zero] at h0
      have hres : res i = true := h0.1
      have hshut : shut i = false := h0.2
      have hfail2 : res (i + 1 + k) = false := by
        rw [show i + 1 + k = i + (k + 1) by omega]; exact hfail
      have hpre2 : ∀ j, j < k → res (i + 1 + j) = true ∧ shut (i + 1 + j) = false := by
        intro j hj
        rw [show i + 1 + j = i + (j + 1) by omega]
        exact hpre (j + 1) (by omega)
      have ihx := ih (i + 1) f hfail2 hpre2 (by omega)
      simp [sched_loop, hres, hshut, ihx, cycles_until]

theorem mem_cycles_until :
    ∀ (k i j : Nat), Ev.cycleRun j ∈ cycles_until i k ↔ (i ≤ j ∧ j ≤ i + k) := by
  intro k
  induction k with
  | zero =>
    intro i j
    simp [cycles_until]
    omega
  | succ k ih =>
    intro i j
    simp [cycles_until, ih (i + 1) j]
    omega

/-- Claim C4: when every cycle before `k` succeeds with no shutdown and
cycle `k` fails, then for every sufficient fuel the scheduler runs
exactly the cycles 0 through `k`, ends stopped, and the outcome no
longer depends on fuel — no cycle after the first failing one is ever
attempted and the stopped state is terminal. -/
theorem c4_fatal_stop (res shut : Nat → Bool) (k : Nat)
    (hfail : res k = false)
    (hpre : ∀ j, j < k → res j = true ∧ shut j = false) :
    ∀ fuel, k < fuel →
      sched_loop res shut fuel 0 = (cycles_until 0 k, .stopped) ∧
      (∀ j, Ev.cycleRun j ∈ (sched_loop res shut fuel 0).1 ↔ j ≤ k) := by
  intro fuel hfuel
  have h := sched_loop_first_fail res shut k 0 fuel (by simpa using hfail)
    (by intro j hj; simpa using hpre j hj) hfuel
  refine ⟨h, ?_⟩
  intro j
  rw [h]
  simpa using mem_cycles_until k 0 j

/-- Claim C4, witness: with only cycle 0 succeeding and no shutdown,
three units of fuel run exactly cycles 0 and 1 and stop. -/
theorem c4_fatal_stop_witness :
    sched_loop sres sshut 3 0 = (cycles_until 0 1, .stopped) :=
  (c4_fatal_stop sres sshut 1 rfl
    (by
      intro j hj
      have hj0 : j = 0 := Nat.lt_one_iff.mp hj
      subst hj0
      exact ⟨rfl, rfl⟩)
    3 (by decide)).1

/-- Claim C8: a scheduler iteration with fuel left begins with the cycle
itself — no wait precedes it; every wait event in a run belongs to a
cycle that succeeded; and when the cycle succeeds and the shutdown
signal fires during the following wait, the loop stops right after that
wait with no further cycle. -/
theorem c8_first_cycle_immediate (res shut : Nat → Bool) (fuel i : Nat) :
    ((sched_loop res shut (fuel + 1) i).1.head? = some (.cycleRun i)) ∧
    (∀ j, Ev.intervalWait j ∈ (sched_loop res shut fuel i).1 → res j = true) ∧
    (res i = true → shut i = true →
      sched_loop res shut (fuel + 1) i = ([.cycleRun i, .intervalWait i], .stopped)) := by
  refine ⟨?_, ?_, ?_⟩
  · by_cases hres : res i = false
    · simp [sched_loop, hres]
    · by_cases hshut : shut i = true
      · simp [sched_loop, hres, hshut]
      · simp [sched_loop, hres, hshut]
  · induction fuel generalizing i with
    | zero => intro j h; simp [sched_loop] at h
    | succ f ih =>
      intro j h
      cases hres : res i with
      | false => simp [sched_loop, hres] at h
      | true =>
        cases hshut : shut i with
        | true =>
          simp [sched_loop, hres, hshut] at h
          rw [h]
          exact hres
        | false =>
          simp [sched_loop, hres, hshut] at h
          rcases h with h | h
          · rw [h]
            exact hres
          · exact ih i.succ j h
  · intro h1 h2
    simp [sched_loop, h1, h2]

/-- Claim C8, witness: with every cycle succeeding and the shutdown
signal firing during every wait, the loop runs one cycle, waits, and
stops. -/
theorem c8_first_cycle_immediate_witness :
    sched_loop cres cshut 4 0 = ([.cycleRun 0, .intervalWait 0], .stopped) :=
  (c8_first_cycle_immediate cres cshut 3 0).2.2 rfl rfl

/-! Helper lemmas about the public-IP iteration. -/

theorem spec_first_valid_cons_none (tail : List (Option String)) :
    spec_first_valid (none :: tail) = spec_first_valid tail := by
  simp [spec_first_valid, List.findSome?]

theorem spec_first_valid_cons_some (body : String) (tail : List (Option String)) :
    spec_first_valid (some body :: tail) =
      if is_valid_ipv4 (str_trim body) then some (str_trim body)
      else spec_first_valid tail := by
  by_cases h : is_valid_ipv4 (str_trim body) = true <;>
    simp [spec_first_valid, List.findSome?, h]

theorem fetch_from_spec (rs : List (Option String)) :
    fetch_public_ip_from rs =
      match spec_first_valid rs with
      | some ip => .ok ip
      | none => .error (.msg "No valid public IP address could be determined") := by
  induction rs with
  | nil => rfl
  | cons head tail ih =>
    cases head with
    | none =>
      rw [spec_first_valid_cons_none]
      exact ih
    | some body =>
      rw [spec_first_valid_cons_some]
      by_cases h : is_valid_ipv4 (str_trim body) = true
      · simp [fetch_public_ip_from, h]
      · simp only [fetch_public_ip_from, h, if_false, Bool.false_eq_true, ite_false]
        exact ih

/-- Claim C6: the resolver returns the trimmed body of the first source
in list order that yields a syntactically valid IPv4 address, skipping
failed fetches and non-IPv4 bodies, and fails with the fixed no-source
message exactly when no source yields one; a non-IPv4 first body is
skipped in favour of the next source, and textual IPv6 addresses are
not valid IPv4 addresses. -/
theorem c6_first_valid_source :
    (∀ ipEnv : String → Option String,
       fetch_public_ip ipEnv =
         match spec_first_valid (IP_SERVICES.map ipEnv) with
         | some ip => .ok ip
         | none => .error (.msg "No valid public IP address could be determined")) ∧
    fetch_public_ip_from [some "not-an-ip", some "203.0.113.7\n"] = .ok "203.0.113.7" ∧
    is_valid_ipv4 "2001:db8::1" = false ∧
    is_valid_ipv4 "::ffff:203.0.113.7" = false := by
  refine ⟨fun ipEnv => fetch_from_spec (IP_SERVICES.map ipEnv), ?_, ?_, ?_⟩ <;> rfl

/-- Claim C5: in a cycle whose checks pass, whose content read yields
`cur` and whose resolution yields `pub` — when the two strings are
equal the cycle succeeds with no write issued, and when they differ
exactly one write is issued, carrying a body whose content field is the
resolved public IP. -/
theorem c5_conditional_write (p : ProviderBehavior) (ipEnv : String → Option String)
    (cur pub : String)
    (hchk : (check_all_info p).1 = .ok ())
    (hcur : current_ip p = .ok cur)
    (hpub : fetch_public_ip ipEnv = .ok pub) :
    (cur = pub →
       (update p ipEnv).1 = .ok () ∧ (update p ipEnv).2.filter isWriteCall = []) ∧
    (cur ≠ pub →
       (update p ipEnv).2.filter isWriteCall = [.writePut (update_body pub)] ∧
       getKey (update_body pub) "content" = .str pub) := by
  have hfull := (check_succ p hchk).1
  constructor
  · intro heq
    subst heq
    simp [update, hfull, hcur, hpub, isWriteCall]
  · intro hne
    refine ⟨?_, rfl⟩
    cases hput : update_ip p pub with
    | ok u => simp [update, hfull, hcur, hpub, hne, hput, isWriteCall]
    | error e => simp [update, hfull, hcur, hpub, hne, hput, isWriteCall]

/-- Claim C5, witness: with content "1.2.3.4" and resolved IP "5.6.7.8"
the cycle issues exactly one write carrying "5.6.7.8". -/
theorem c5_conditional_write_witness :
    (update p_c5 ipenv_c5).2.filter isWriteCall = [.writePut (update_body "5.6.7.8")] ∧
    getKey (update_body "5.6.7.8") "content" = .str "5.6.7.8" :=
  (c5_conditional_write p_c5 ipenv_c5 "1.2.3.4" "5.6.7.8" rfl rfl rfl).2
    (by decide)

/-- Claim C9: the write request body consists exactly of type "A",
empty name, content equal to the given string, ttl 1 and proxied false,
and the write succeeds exactly when the provider answers it with a
success status, failing with the fixed rejection message on a
non-success status. -/
theorem c9_write_request (new_ip : String) (p : ProviderBehavior) :
    getKey (update_body new_ip) "type" = .str "A" ∧
    getKey (update_body new_ip) "name" = .str "" ∧
    getKey (update_body new_ip) "content" = .str new_ip ∧
    getKey (update_body new_ip) "ttl" = .num 1 ∧
    getKey (update_body new_ip) "proxied" = .bool false ∧
    (update_ip p new_ip = .ok () ↔ ∃ r, p.recordPut = some r ∧ r.isSuccess = true) ∧
    (∀ r, p.recordPut = some r → r.isSuccess = false →
       update_ip p new_ip = .error (.msg "Failed to update IP")) := by
  refine ⟨rfl, rfl, rfl, rfl, rfl, ?_, ?_⟩
  · cases hput : p.recordPut with
    | none => simp [update_ip, hput]
    | some r =>
      cases hs : r.isSuccess with
      | false => simp [update_ip, hput, hs]
      | true => simp [update_ip, hput, hs]
  · intro r hput hs
    simp [update_ip, hput, hs]

/-- Claim C9, witness: the body of a concrete write carries the given
content, a success status yields Ok and a non-success status yields the
rejection error. -/
theorem c9_write_request_witness :
    getKey (update_body "203.0.113.7") "content" = .str "203.0.113.7" ∧
    update_ip (mkBehavior none none none none none (some okResp)) "203.0.113.7" = .ok () ∧
    update_ip (mkBehavior none none none none none (some badResp)) "203.0.113.7" =
      .error (.msg "Failed to update IP") := by
  refine ⟨(c9_write_request "203.0.113.7"
      (mkBehavior none none none none none (some badResp))).2.2.1, ?_, ?_⟩
  · exact (c9_write_request "203.0.113.7"
      (mkBehavior none none none none none (some okResp))).2.2.2.2.2.1.mpr
      ⟨okResp, rfl, rfl⟩
  · exact (c9_write_request "203.0.113.7"
      (mkBehavior none none none none none (some badResp))).2.2.2.2.2.2 badResp rfl rfl

/-- Claim C10: the content read returns exactly the string found at
result.content of the JSON body, unchanged and unvalidated, and fails
only when that field is absent or not a string, when the body is not
JSON, or when the call itself fails. -/
theorem c10_content_unvalidated (succ : Bool) (j : Json) (s : String)
    (tok zone rec listing put : Option Response) :
    (getKey (getKey j "result") "content" = .str s →
       current_ip (mkBehavior tok zone rec (some ⟨succ, some j⟩) listing put) = .ok s) ∧
    (asStr (getKey (getKey j "result") "content") = none →
       current_ip (mkBehavior tok zone rec (some ⟨succ, some j⟩) listing put) =
         .error (.msg "No IP found in record")) ∧
    current_ip (mkBehavior tok zone rec (some ⟨succ, none⟩) listing put) =
      .error (.jsonErr .currentContentGet) ∧
    current_ip (mkBehavior tok zone rec none listing put) =
      .error (.transport .currentContentGet) := by
  refine ⟨?_, ?_, rfl, rfl⟩
  · intro h
    simp [current_ip, mkBehavior, h, asStr]
  · intro h
    simp [current_ip, mkBehavior, h]

/-- Claim C10, witness: a content string that is not an IPv4 address is
returned unchanged. -/
theorem c10_content_unvalidated_witness :
    current_ip (mkBehavior none none none (some ⟨false, some j_c10⟩) none none) =
      .ok "not-an-ip" ∧
    is_valid_ipv4 "not-an-ip" = false :=
  ⟨(c10_content_unvalidated false j_c10 "not-an-ip" none none none none none).1 rfl,
   by rfl⟩

/-- Claim C7: the trace of a cycle is always a step-by-step extension
of the fixed order token check, zone check, record check (with the
diagnostic listing on its failure path), content read, resolution, and
write; and every later step's presence in the trace implies the earlier
steps succeeded — a failed or false-returning step ends the cycle with
no later operation invoked. -/
theorem c7_step_order (p : ProviderBehavior) (ipEnv : String → Option String) :
    ((update p ipEnv).2 = [.tokenVerify] ∨
     (update p ipEnv).2 = [.tokenVerify, .zoneGet] ∨
     (update p ipEnv).2 = [.tokenVerify, .zoneGet, .recordGet] ∨
     (update p ipEnv).2 = [.tokenVerify, .zoneGet, .recordGet, .listRecordsGet] ∨
     (update p ipEnv).2 = [.tokenVerify, .zoneGet, .recordGet, .currentContentGet] ∨
     (update p ipEnv).2 =
       [.tokenVerify, .zoneGet, .recordGet, .currentContentGet, .resolveIp] ∨
     (∃ b, (update p ipEnv).2 =
       [.tokenVerify, .zoneGet, .recordGet, .currentContentGet, .resolveIp,
        .writePut b])) ∧
    (Call.zoneGet ∈ (update p ipEnv).2 → api_token_right p = .ok true) ∧
    (Call.recordGet ∈ (update p ipEnv).2 → zone_id_right p = .ok true) ∧
    (Call.currentContentGet ∈ (update p ipEnv).2 →
       record_id_right p = .ok true ∧ (check_all_info p).1 = .ok ()) ∧
    (Call.resolveIp ∈ (update p ipEnv).2 → ∃ s, current_ip p = .ok s) ∧
    ((∃ b, Call.writePut b ∈ (update p ipEnv).2) →
       ∃ ip cur, fetch_public_ip ipEnv = .ok ip ∧ current_ip p = .ok cur ∧ cur ≠ ip) := by
  cases htok : api_token_right p with
  | error e =>
    have hup : update p ipEnv = (.error e, [.tokenVerify]) := by
      simp [update, check_tok_err p e htok]
    refine ⟨.inl (by rw [hup]), ?_, ?_, ?_, ?_, ?_⟩ <;>
      (rw [hup]; intro h; simp at h)
  | ok tok =>
    cases tok with
    | false =>
      have hup : update p ipEnv =
          (.error (.msg "API token is invalid"), [.tokenVerify]) := by
        simp [update, check_tok_false p htok]
      refine ⟨.inl (by rw [hup]), ?_, ?_, ?_, ?_, ?_⟩ <;>
        (rw [hup]; intro h; simp at h)
    | true =>
      cases hzone : zone_id_right p with
      | error e =>
        have hup : update p ipEnv = (.error e, [.tokenVerify, .zoneGet]) := by
          simp [update, check_zone_err p e htok hzone]
        refine ⟨.inr (.inl (by rw [hup])), fun _ => rfl, ?_, ?_, ?_, ?_⟩ <;>
          (rw [hup]; intro h; simp at h)
      | ok zOk =>
        cases zOk with
        | false =>
          have hup : update p ipEnv =
              (.error (.msg "Zone ID is invalid"), [.tokenVerify, .zoneGet]) := by
            simp [update, check_zone_false p htok hzone]
          refine ⟨.inr (.inl (by rw [hup])), fun _ => rfl, ?_, ?_, ?_, ?_⟩ <;>
            (rw [hup]; intro h; simp at h)
        | true =>
          cases hrec : record_id_right p with
          | error e =>
            have hup : update p ipEnv =
                (.error e, [.tokenVerify, .zoneGet, .recordGet]) := by
              simp [update, check_rec_err p e htok hzone hrec]
            refine ⟨.inr (.inr (.inl (by rw [hup]))), fun _ => rfl, fun _ => rfl,
              ?_, ?_, ?_⟩ <;> (rw [hup]; intro h; simp at h)
          | ok rOk =>
            cases rOk with
            | false =>
              cases hlist : list_records p with
              | error e2 =>
                have hup : update p ipEnv =
                    (.error e2,
                     [.tokenVerify, .zoneGet, .recordGet, .listRecordsGet]) := by
                  simp [update, check_rec_false_list_err p e2 htok hzone hrec hlist]
                refine ⟨.inr (.inr (.inr (.inl (by rw [hup])))), fun _ => rfl,
                  fun _ => rfl, ?_, ?_, ?_⟩ <;> (rw [hup]; intro h; simp at h)
              | ok recs =>
                have hup : update p ipEnv =
                    (.error (.msg "Record ID is invalid"),
                     [.tokenVerify, .zoneGet, .recordGet, .listRecordsGet]) := by
                  simp [update, check_rec_false_list_ok p recs htok hzone hrec hlist]
                refine ⟨.inr (.inr (.inr (.inl (by rw [hup])))), fun _ => rfl,
                  fun _ => rfl, ?_, ?_, ?_⟩ <;> (rw [hup]; intro h; simp at h)
            | true =>
              have hchk := check_passes p htok hzone hrec
              cases hcur : current_ip p with
              | error e =>
                have hup : update p ipEnv =
                    (.error e,
                     [.tokenVerify, .zoneGet, .recordGet, .currentContentGet]) := by
                  simp [update, hchk, hcur]
                refine ⟨.inr (.inr (.inr (.inr (.inl (by rw [hup]))))), fun _ => rfl,
                  fun _ => rfl, fun _ => ⟨rfl, by rw [hchk]⟩, ?_, ?_⟩ <;>
                  (rw [hup]; intro h; simp at h)
              | ok cur =>
                cases hpub : fetch_public_ip ipEnv with
                | error e =>
                  have hup : update p ipEnv =
                      (.error e,
                       [.tokenVerify, .zoneGet, .recordGet, .currentContentGet,
                        .resolveIp]) := by
                    simp [update, hchk, hcur, hpub]
                  refine ⟨.inr (.inr (.inr (.inr (.inr (.inl (by rw [hup])))))),
                    fun _ => rfl, fun _ => rfl, fun _ => ⟨rfl, by rw [hchk]⟩,
                    fun _ => ⟨cur, rfl⟩, ?_⟩
                  rw [hup]
                  intro h
                  simp at h
                | ok pub =>
                  by_cases hne : cur = pub
                  · subst hne
                    have hup : update p ipEnv =
                        (.ok (),
                         [.tokenVerify, .zoneGet, .recordGet, .currentContentGet,
                          .resolveIp]) := by
                      simp [update, hchk, hcur, hpub]
                    refine ⟨.inr (.inr (.inr (.inr (.inr (.inl (by rw [hup])))))),
                      fun _ => rfl, fun _ => rfl, fun _ => ⟨rfl, by rw [hchk]⟩,
                      fun _ => ⟨cur, rfl⟩, ?_⟩
                    rw [hup]
                    intro h
                    simp at h
                  · cases hput : update_ip p pub with
                    | ok u =>
                      have hup : update p ipEnv =
                          (.ok (),
                           [.tokenVerify, .zoneGet, .recordGet, .currentContentGet,
                            .resolveIp, .writePut (update_body pub)]) := by
                        simp [update, hchk, hcur, hpub, hne, hput]
                      exact ⟨.inr (.inr (.inr (.inr (.inr (.inr
                          ⟨update_body pub, by rw [hup]⟩))))),
                        fun _ => rfl, fun _ => rfl, fun _ => ⟨rfl, by rw [hchk]⟩,
                        fun _ => ⟨cur, rfl⟩, fun _ => ⟨pub, cur, rfl, rfl, hne⟩⟩
                    | error e =>
                      have hup : update p ipEnv =
                          (.error e,
                           [.tokenVerify, .zoneGet, .recordGet, .currentContentGet,
                            .resolveIp, .writePut (update_body pub)]) := by
                        simp [update, hchk, hcur, hpub, hne, hput]
                      exact ⟨.inr (.inr (.inr (.inr (.inr (.inr
                          ⟨update_body pub, by rw [hup]⟩))))),
                        fun _ => rfl, fun _ => rfl, fun _ => ⟨rfl, by rw [hchk]⟩,
                        fun _ => ⟨cur, rfl⟩, fun _ => ⟨pub, cur, rfl, rfl, hne⟩⟩

/-- Claim C7, witness: in the all-success run the later steps' presence
in the trace certifies the earlier checks passed. -/
theorem c7_step_order_witness :
    api_token_right p_c5 = .ok true ∧ (∃ s, current_ip p_c5 = .ok s) := by
  have htr : (update p_c5 ipenv_c5).2 =
      [.tokenVerify, .zoneGet, .recordGet, .currentContentGet, .resolveIp,
       .writePut (update_body "5.6.7.8")] := by rfl
  have h := c7_step_order p_c5 ipenv_c5
  exact ⟨h.2.1 (by rw [htr]; simp), h.2.2.2.2.1 (by rw [htr]; simp)⟩

end Crondes
